import Mathlib

/-!
Verification of the lvmcryo valve supervision engine.

This file gives a shallow embedding, in Lean, of the parts of the
sdss/lvmcryo code base that the specification claims talk about:

* the NPS driver calls in src/lvmcryo/handlers/valve.py
  (valve_on_off, cancel_nps_threads, outlet_info, close_all_valves),
* the per-valve supervisor ValveHandler (same file),
* the LN2Handler orchestrator methods abort / stop / fail and the
  monitor_alerts safety loop in src/lvmcryo/handlers/ln2.py,
* the thermistor watcher loop in src/lvmcryo/handlers/thermistor.py,
* the ensure_lock context manager in src/lvmcryo/tools.py,
* the post-fill validator in src/lvmcryo/validate.py,
* the thermistor datagram decoder in src/ln2fill/tools.py.

Conventions.  Machine time is modelled with Nat (unix seconds); the
source works with float seconds, and the only place where the
difference is observable, real subtraction that can go negative, uses
Int explicitly.  Wall effects are modelled as explicit traces: every
operation returns the list of commands it sent to the NPS together
with its result.  Fallible code returns Except.  Retries (the Retrier
decorators) re-send the same commands and do not change which commands
are sent at least once, so they are not modelled.  Logging calls do
not affect control flow (except through the values they compute) and
are dropped.
-/

namespace LvmCryo

/-- A wire command sent to an NPS actor.  The constructors correspond
one to one with the command strings built in
src/lvmcryo/handlers/valve.py: `status <outlet>`, `on <outlet>`,
`off <outlet>`, `on --off-after <sec> <outlet>`,
`scripts run cycle_with_timeout <id> <sec>` and
`scripts stop [<thread_id>]`. -/
inductive NpsCmd where
  | status (actor outlet : String)
  | onCmd (actor outlet : String)
  | offCmd (actor outlet : String)
  | onOffAfter (actor outlet : String) (timeout : Nat)
  | scriptRun (actor : String) (outletId timeout : Nat)
  | scriptStop (actor : String) (threadId : Option Nat)
  deriving DecidableEq

/-- Whether a command actuates hardware (turns an outlet on or off, or
arms the auto-close script).  The `status` query and the script-stop
command do not switch an outlet. -/
def NpsCmd.isActuation : NpsCmd → Bool
  | NpsCmd.onCmd _ _ => true
  | NpsCmd.offCmd _ _ => true
  | NpsCmd.onOffAfter _ _ _ => true
  | NpsCmd.scriptRun _ _ _ => true
  | _ => false

/-- The external world the driver talks to: the LN2 e-stop state read
through lvmecp (lvmcryo/tools.py, ln2_estops) and, for each
actor/outlet pair, the outlet id and current on/off state the NPS
reports, plus the thread id the NPS assigns to a started script. -/
structure NpsEnv where
  estopsActive : Bool
  outletId : String → String → Nat
  outletState : String → String → Bool
  scriptThreadId : String → Nat

/-- Embedding of outlet_info (valve.py lines 43-52): sends a status
query and returns the outlet id from the reply. -/
def outlet_info (env : NpsEnv) (actor outlet : String) : List NpsCmd × Nat :=
  ([NpsCmd.status actor outlet], env.outletId actor outlet)

/-- Embedding of valve_on_off (valve.py lines 55-125).  Faithful
points: the e-stop check happens first and raises before any command
is sent; on the script path (turnOn, a timeout, useScript) the outlet
id is resolved through outlet_info, sending a status query, before the
dry-run check; dry_run then returns thread id 0 on the script path and
none otherwise, skipping only the remaining command. -/
def valve_on_off (env : NpsEnv) (actor outletName : String) (turnOn : Bool)
    (timeout : Option Nat) (useScript : Bool) (dryRun : Bool) :
    List NpsCmd × Except String (Option Nat) :=
  if env.estopsActive then
    ([], Except.error "Cannot operate LN2 valves: e-stops are active.")
  else if turnOn && timeout.isSome && useScript then
    let info := outlet_info env actor outletName
    if dryRun then
      (info.1, Except.ok (some 0))
    else
      (info.1 ++ [NpsCmd.scriptRun actor info.2 (timeout.getD 0)],
        Except.ok (some (env.scriptThreadId actor)))
  else
    let cmd :=
      if !turnOn || timeout.isNone then
        if turnOn then NpsCmd.onCmd actor outletName
        else NpsCmd.offCmd actor outletName
      else NpsCmd.onOffAfter actor outletName (timeout.getD 0)
    if dryRun then ([], Except.ok none)
    else ([cmd], Except.ok none)

/-- Embedding of cancel_nps_threads (valve.py lines 128-144).  The
source sends the `scripts stop` command directly; it does not consult
the e-stop state and does not check the reply, so the model takes no
environment and cannot fail. -/
def cancel_nps_threads (actor : String) (threadId : Option Nat) : List NpsCmd :=
  [NpsCmd.scriptStop actor threadId]

/-- One entry of the valve_info configuration mapping: valve name,
NPS actor and outlet name (lvmcryo/config.py, ValveConfig). -/
structure ValveConfigEntry where
  valve : String
  actor : String
  outlet : String
  deriving DecidableEq

/-- Embedding of close_all_valves (valve.py lines 147-164): one off
command per configured valve, addressed by the configured outlet
field.  All the gathered coroutines run; the first error is raised
after all of them finished sending. -/
def close_all_valves (env : NpsEnv) (valveInfo : List ValveConfigEntry)
    (dryRun : Bool) : List NpsCmd × Except String Unit :=
  match valveInfo with
  | [] => ([], Except.ok ())
  | v :: rest =>
      let r := valve_on_off env v.actor v.outlet false none true dryRun
      let rr := close_all_valves env rest dryRun
      (r.1 ++ rr.1,
        match r.2 with
        | Except.error e => Except.error e
        | Except.ok _ => rr.2)

/-- A concrete fault-free environment used for witnesses and
counterexamples. -/
def envTest : NpsEnv :=
  { estopsActive := false
    outletId := fun _ _ => 7
    outletState := fun _ _ => false
    scriptThreadId := fun _ => 42 }

/-- The same environment with the LN2 e-stops active. -/
def envEstop : NpsEnv :=
  { envTest with estopsActive := true }

/-- C3 counterexample.  The claim says every mutating driver call,
including cancel_script, fails without sending any command while an
LN2 e-stop is active.  cancel_nps_threads (valve.py lines 128-144)
never consults the e-stop state: its embedding takes no e-stop input
at all, sends its `scripts stop` command unconditionally and cannot
fail, so at this concrete input a command is sent no matter the
e-stop state. -/
theorem cancel_script_ignores_estops_cex :
    cancel_nps_threads "sp1.nps" (some 3)
      = [NpsCmd.scriptStop "sp1.nps" (some 3)]
    ∧ cancel_nps_threads "sp1.nps" (some 3) ≠ [] := by
  exact ⟨rfl, by decide⟩

/-- C3 amended: only set_outlet (valve_on_off) is e-stop gated.  With
an active LN2 e-stop, valve_on_off fails with the e-stop error without
sending any command, for every argument combination; cancel_script
(cancel_nps_threads) sends its stop command unconditionally. -/
theorem estop_gates_set_outlet_only (env : NpsEnv) (actor outletName : String)
    (turnOn : Bool) (timeout : Option Nat) (useScript dryRun : Bool)
    (hestop : env.estopsActive = true) :
    valve_on_off env actor outletName turnOn timeout useScript dryRun
      = ([], Except.error "Cannot operate LN2 valves: e-stops are active.")
    ∧ ∀ (a : String) (tid : Option Nat),
        cancel_nps_threads a tid = [NpsCmd.scriptStop a tid] := by
  refine ⟨?_, fun a tid => rfl⟩
  simp [valve_on_off, hestop]

/-- Witness for the C3 amended theorem at a concrete input. -/
theorem estop_gates_set_outlet_only_witness :
    valve_on_off envEstop "sp1.nps" "r1" true (some 5) true false
      = ([], Except.error "Cannot operate LN2 valves: e-stops are active.")
    ∧ ∀ (a : String) (tid : Option Nat),
        cancel_nps_threads a tid = [NpsCmd.scriptStop a tid] :=
  estop_gates_set_outlet_only envEstop "sp1.nps" "r1" true (some 5) true false rfl

/-- C6 counterexample.  The claim says a dry_run set_outlet call sends
no wire command to the NPS regardless of the on/timeout/use_script
combination.  On the script path (valve.py lines 99-105) the outlet id
is resolved with outlet_info before the dry-run check at line 113, so
a `status` wire command is sent to the NPS even with dry_run=true. -/
theorem dry_run_script_path_sends_status_cex :
    valve_on_off envTest "sp1.nps" "r1" true (some 5) true true
      = ([NpsCmd.status "sp1.nps" "r1"], Except.ok (some 0))
    ∧ (valve_on_off envTest "sp1.nps" "r1" true (some 5) true true).1 ≠ [] := by
  exact ⟨rfl, by decide⟩

/-- C6 amended: with dry_run=true (and the e-stops inactive, otherwise
the call fails before reaching the dry-run logic) no actuation command
is ever sent and the call returns the synthetic thread id 0 on the
script path and none otherwise; however the script path still sends
the outlet_info status query to the NPS, while every other combination
sends nothing. -/
theorem dry_run_skips_actuation (env : NpsEnv) (actor outletName : String)
    (turnOn : Bool) (timeout : Option Nat) (useScript : Bool)
    (hestop : env.estopsActive = false) :
    (∀ c ∈ (valve_on_off env actor outletName turnOn timeout useScript true).1,
        c.isActuation = false)
    ∧ (turnOn = true ∧ timeout.isSome = true ∧ useScript = true →
        valve_on_off env actor outletName turnOn timeout useScript true
          = ([NpsCmd.status actor outletName], Except.ok (some 0)))
    ∧ (¬(turnOn = true ∧ timeout.isSome = true ∧ useScript = true) →
        valve_on_off env actor outletName turnOn timeout useScript true
          = ([], Except.ok none)) := by
  by_cases hs : turnOn = true ∧ timeout.isSome = true ∧ useScript = true
  · obtain ⟨h1, h2, h3⟩ := hs
    subst h1 h3
    refine ⟨?_, fun _ => ?_, fun hc => absurd ⟨rfl, h2, rfl⟩ hc⟩ <;>
      simp [valve_on_off, outlet_info, hestop, h2, NpsCmd.isActuation]
  · have hb : (turnOn && timeout.isSome && useScript) = false := by
      rcases Bool.eq_false_or_eq_true (turnOn && timeout.isSome && useScript) with h | h
      · exact absurd (by simpa [Bool.and_eq_true, and_assoc] using h) hs
      · exact h
    refine ⟨?_, fun hc => absurd hc hs, fun _ => ?_⟩ <;>
      simp [valve_on_off, hestop, hb]

/-- Witness for the C6 amended theorem at a concrete input. -/
theorem dry_run_skips_actuation_witness :
    (∀ c ∈ (valve_on_off envTest "sp1.nps" "r1" true (some 5) true true).1,
        c.isActuation = false)
    ∧ (true = true ∧ (some 5 : Option Nat).isSome = true ∧ true = true →
        valve_on_off envTest "sp1.nps" "r1" true (some 5) true true
          = ([NpsCmd.status "sp1.nps" "r1"], Except.ok (some 0)))
    ∧ (¬(true = true ∧ (some 5 : Option Nat).isSome = true ∧ true = true) →
        valve_on_off envTest "sp1.nps" "r1" true (some 5) true true
          = ([], Except.ok none)) :=
  dry_run_skips_actuation envTest "sp1.nps" "r1" true (some 5) true rfl

/-- The mutable state of the per-valve supervisor
(lvmcryo/handlers/valve.py, ValveHandler dataclass and __post_init__).
The asyncio.Event done signal is the eventSet flag; the monitor and
timeout tasks are not NPS visible and are dropped. -/
structure ValveHandler where
  valve : String
  actor : String
  outlet : String
  dryRun : Bool
  threadId : Option Nat
  openTime : Option Nat
  closeTime : Option Nat
  eventSet : Bool
  active : Bool
  timedOut : Bool
  deriving DecidableEq

/-- A freshly constructed supervisor for a valve descriptor
(__post_init__ in valve.py). -/
def ValveHandler.mk0 (valve actor outlet : String) (dryRun : Bool) : ValveHandler :=
  { valve := valve
    actor := actor
    outlet := outlet
    dryRun := dryRun
    threadId := none
    openTime := none
    closeTime := none
    eventSet := false
    active := false
    timedOut := false }

/-- Embedding of ValveHandler._set_state (valve.py lines 325-386).
Faithful points: a cached thread id is cancelled first (unless in dry
run); the valve_on_off call at lines 355-362 passes self.valve, the
valve name, as the outlet_name argument, not the self.outlet field;
a returned thread id replaces the cached one; opening records
open_time, closing records close_time and, on a timeout closure, sets
timed_out.  An exception from valve_on_off propagates before any of
those fields is written. -/
def ValveHandler.setState (env : NpsEnv) (h : ValveHandler) (turnOn : Bool)
    (useScript : Bool) (timeout : Option Nat) (didTimeout : Bool) (now : Nat) :
    List NpsCmd × Except String ValveHandler :=
  let cancelCmds :=
    if h.threadId.isSome && !h.dryRun then cancel_nps_threads h.actor h.threadId
    else []
  let r := valve_on_off env h.actor h.valve turnOn timeout useScript h.dryRun
  match r.2 with
  | Except.error e => (cancelCmds ++ r.1, Except.error e)
  | Except.ok tid =>
      let h1 := if tid.isSome then { h with threadId := tid } else h
      let h2 :=
        if turnOn then { h1 with openTime := some now }
        else if didTimeout then
          { h1 with timedOut := true, closeTime := some now }
        else { h1 with closeTime := some now }
      (cancelCmds ++ r.1, Except.ok h2)

/-- Embedding of ValveHandler.finish (valve.py lines 307-323): when
closeValve is set it calls _set_state(False, did_timeout); it then
cancels the monitor and timeout tasks (not NPS visible), clears the
active flag and sets the done event.  An exception from _set_state
propagates before those steps. -/
def ValveHandler.finish (env : NpsEnv) (h : ValveHandler)
    (closeValve didTimeout : Bool) (now : Nat) :
    List NpsCmd × Except String ValveHandler :=
  if closeValve then
    let r := h.setState env false true none didTimeout now
    match r.2 with
    | Except.error e => (r.1, Except.error e)
    | Except.ok h1 => (r.1, Except.ok { h1 with active := false, eventSet := true })
  else
    ([], Except.ok { h with active := false, eventSet := true })

/-- Embedding of ValveHandler.check (valve.py lines 214-225): queries
outlet_info with the self.outlet field and succeeds when the reply is
valid and the outlet reports off. -/
def ValveHandler.check (env : NpsEnv) (h : ValveHandler) : List NpsCmd × Bool :=
  ((outlet_info env h.actor h.outlet).1, !env.outletState h.actor h.outlet)

/-- A supervisor state as it stands after a successful open and one
completed close: the NPS script thread id is cached from the open, the
valve was opened at time 3 and closed at time 10, the done event
fired. -/
def closedHandler : ValveHandler :=
  { valve := "r1"
    actor := "sp1.nps"
    outlet := "r1"
    dryRun := false
    threadId := some 42
    openTime := some 3
    closeTime := some 10
    eventSet := true
    active := false
    timedOut := false }

/-- C8 counterexample.  The claim says a second finish after
completion issues no additional NPS command and leaves close_time
unchanged.  finish has no already-closed guard: called again at time
20 on a supervisor that already closed at time 10 it cancels the
cached NPS script thread again, sends another off command, and
overwrites close_time with 20. -/
theorem finish_not_idempotent_cex :
    closedHandler.finish envTest true false 20
      = ([NpsCmd.scriptStop "sp1.nps" (some 42), NpsCmd.offCmd "sp1.nps" "r1"],
          Except.ok { closedHandler with closeTime := some 20 })
    ∧ (closedHandler.finish envTest true false 20).1 ≠ []
    ∧ (some 20 : Option Nat) ≠ some 10 := by
  refine ⟨rfl, by decide, by decide⟩

/-- C8 amended: finish is not idempotent in its wire effect or in
close_time.  A second finish(close_valve=true, did_timeout=false) on a
supervisor that has already completed a close (done event set, a close
time recorded, a thread id cached, not in dry run, e-stops inactive)
sends the script-stop and off commands again and overwrites close_time
with the time of the second call; the done event, the active flag, the
timed_out flag and open_time are unchanged. -/
theorem finish_second_call (env : NpsEnv) (h : ValveHandler) (t1 t2 : Nat)
    (hestop : env.estopsActive = false) (hdry : h.dryRun = false)
    (hdone : h.eventSet = true) (hact : h.active = false)
    (hclose : h.closeTime = some t1) (hthread : h.threadId.isSome = true) :
    h.finish env true false t2
      = ([NpsCmd.scriptStop h.actor h.threadId, NpsCmd.offCmd h.actor h.valve],
          Except.ok { h with closeTime := some t2 }) := by
  simp only [ValveHandler.finish, ValveHandler.setState, valve_on_off, hestop,
    hdry, hthread, cancel_nps_threads, Bool.false_eq_true, if_false,
    Bool.and_false, Bool.false_and, Option.isNone_none, Bool.not_false,
    Bool.and_true, Bool.true_and]
  simp only [Bool.if_false_left, Bool.and_true, Option.isSome_none,
    Bool.false_eq_true, if_false, Option.isNone_none]
  have : ({ h with active := false, eventSet := true, closeTime := some t2 }
      : ValveHandler) = { h with closeTime := some t2 } := by
    cases h
    simp_all
  simp [this, hdry, hdone, hact]

/-- Witness for the C8 amended theorem at a concrete input. -/
theorem finish_second_call_witness :
    closedHandler.finish envTest true false 20
      = ([NpsCmd.scriptStop closedHandler.actor closedHandler.threadId,
          NpsCmd.offCmd closedHandler.actor closedHandler.valve],
          Except.ok { closedHandler with closeTime := some 20 }) :=
  finish_second_call envTest closedHandler 10 20 rfl rfl rfl rfl rfl rfl

/-- A supervisor for a descriptor whose valve name differs from its
configured outlet name. -/
def mismatchHandler : ValveHandler :=
  ValveHandler.mk0 "r1" "sp1.nps" "outlet_r1" false

/-- C9 counterexample.  The claim says every open and close command
the supervisor sends addresses the outlet by the descriptor's outlet
field.  ValveHandler._set_state (valve.py lines 355-362) passes
self.valve, the valve name, as the outlet_name argument of
valve_on_off.  For a descriptor with valve "r1" and outlet
"outlet_r1", the close command addresses "r1" and no command
addressing "outlet_r1" is sent. -/
theorem supervisor_addresses_valve_name_cex :
    (mismatchHandler.setState envTest false true none false 5).1
      = [NpsCmd.offCmd "sp1.nps" "r1"]
    ∧ NpsCmd.offCmd "sp1.nps" "outlet_r1"
        ∉ (mismatchHandler.setState envTest false true none false 5).1 := by
  exact ⟨rfl, by decide⟩

/-- C9 amended: the supervisor addresses the NPS by the valve name.
With the e-stops inactive and not in dry run, a supervisor close sends
(after cancelling a cached script thread) an off command addressed by
the valve name, and a supervisor open on the script path resolves the
outlet id for, and arms the auto-close script on, the valve name;
these coincide with the descriptor's outlet field only when the valve
name equals the outlet name.  The close-all sweep (close_all_valves)
does address every valve by its configured outlet field. -/
theorem supervisor_addresses_valve_name (env : NpsEnv) (h : ValveHandler)
    (didTimeout : Bool) (timeout now : Nat)
    (hestop : env.estopsActive = false) (hdry : h.dryRun = false) :
    (h.setState env false true none didTimeout now).1
      = (if h.threadId.isSome then [NpsCmd.scriptStop h.actor h.threadId] else [])
        ++ [NpsCmd.offCmd h.actor h.valve]
    ∧ (h.setState env true true (some timeout) false now).1
      = (if h.threadId.isSome then [NpsCmd.scriptStop h.actor h.threadId] else [])
        ++ [NpsCmd.status h.actor h.valve,
            NpsCmd.scriptRun h.actor (env.outletId h.actor h.valve) timeout]
    ∧ ∀ (valveInfo : List ValveConfigEntry),
        (close_all_valves env valveInfo false).1
          = valveInfo.map (fun v => NpsCmd.offCmd v.actor v.outlet) := by
  refine ⟨?_, ?_, ?_⟩
  · simp [ValveHandler.setState, valve_on_off, hestop, hdry, cancel_nps_threads]
  · simp [ValveHandler.setState, valve_on_off, outlet_info, hestop, hdry,
      cancel_nps_threads]
  · intro valveInfo
    induction valveInfo with
    | nil => rfl
    | cons v rest ih =>
        simp [close_all_valves, valve_on_off, hestop, ih]

/-- Witness for the C9 amended theorem at a concrete input. -/
theorem supervisor_addresses_valve_name_witness :
    (mismatchHandler.setState envTest false true none false 5).1
      = (if mismatchHandler.threadId.isSome then
          [NpsCmd.scriptStop mismatchHandler.actor mismatchHandler.threadId]
        else [])
        ++ [NpsCmd.offCmd mismatchHandler.actor mismatchHandler.valve]
    ∧ (mismatchHandler.setState envTest true true (some 30) false 5).1
      = (if mismatchHandler.threadId.isSome then
          [NpsCmd.scriptStop mismatchHandler.actor mismatchHandler.threadId]
        else [])
        ++ [NpsCmd.status mismatchHandler.actor mismatchHandler.valve,
            NpsCmd.scriptRun mismatchHandler.actor
              (envTest.outletId mismatchHandler.actor mismatchHandler.valve) 30]
    ∧ ∀ (valveInfo : List ValveConfigEntry),
        (close_all_valves envTest valveInfo false).1
          = valveInfo.map (fun v => NpsCmd.offCmd v.actor v.outlet) :=
  supervisor_addresses_valve_name envTest mismatchHandler false 30 5 rfl rfl

/-- The mutable state of the LN2Handler orchestrator
(lvmcryo/handlers/ln2.py): the per-valve supervisors built in
__post_init__ for every camera plus the purge valve (the descriptor
set of the run), and the failed/aborted flags with their event times
and error string. -/
structure LN2State where
  handlers : List ValveHandler
  failed : Bool
  aborted : Bool
  error : Option String
  failTime : Option Nat
  abortTime : Option Nat
  deriving DecidableEq

/-- Embedding of the loop body of LN2Handler.stop (ln2.py lines
603-622) over the supervisor list: every supervisor that is active, or
every supervisor when onlyActive is false, gets finish(close_valve =
closeValves).  asyncio.gather with return_exceptions runs all of them,
so every trace is emitted; the first exception in list order is then
re-raised.  Returns the commands, the updated supervisors, and the
first raised error if any. -/
def stopHandlers (env : NpsEnv) (closeValves onlyActive : Bool) (now : Nat) :
    List ValveHandler → List NpsCmd × List ValveHandler × Option String
  | [] => ([], [], none)
  | h :: rest =>
      let rr := stopHandlers env closeValves onlyActive now rest
      if h.active || !onlyActive then
        let r := h.finish env closeValves false now
        match r.2 with
        | Except.ok h1 => (r.1 ++ rr.1, h1 :: rr.2.1, rr.2.2)
        | Except.error e => (r.1 ++ rr.1, h :: rr.2.1, some e)
      else
        (rr.1, h :: rr.2.1, rr.2.2)

/-- Embedding of LN2Handler.stop on the orchestrator state. -/
def ln2Stop (env : NpsEnv) (st : LN2State) (closeValves onlyActive : Bool)
    (now : Nat) : List NpsCmd × LN2State × Option String :=
  let r := stopHandlers env closeValves onlyActive now st.handlers
  (r.1, { st with handlers := r.2.1 }, r.2.2)

/-- Embedding of LN2Handler.fail (ln2.py lines 640-654): sets the
failed flag and fail_time; when an error string is given it is
recorded and, if raiseError, raised.  Returns the new state and the
raised error if any. -/
def ln2Fail (st : LN2State) (error : Option String) (raiseError : Bool)
    (now : Nat) : LN2State × Option String :=
  let st1 := { st with failed := true, failTime := some now }
  match error with
  | some e => ({ st1 with error := some e }, if raiseError then some e else none)
  | none => (st1, none)

/-- Embedding of LN2Handler.abort (ln2.py lines 680-694): sets the
aborted flag and abort_time, then stop(close_valves, only_active =
False) over every supervisor, then fail(error or "Aborted.",
raise_error).  An exception from stop propagates before fail runs. -/
def ln2Abort (env : NpsEnv) (st : LN2State) (error : Option String)
    (closeValves raiseError : Bool) (now : Nat) :
    List NpsCmd × LN2State × Option String :=
  let st1 := { st with aborted := true, abortTime := some now }
  let r := ln2Stop env st1 closeValves false now
  match r.2.2 with
  | some e => (r.1, r.2.1, some e)
  | none =>
      let f := ln2Fail r.2.1 (some (error.getD "Aborted.")) raiseError now
      (r.1, f.1, f.2)

/-- Helper for C2: with the e-stops inactive and real (non dry-run)
supervisors, stopping with close_valves=true and only_active=false
sends an off command for every supervisor in the list and raises no
error. -/
theorem stopHandlers_sends_off (env : NpsEnv) (now : Nat)
    (hestop : env.estopsActive = false) :
    ∀ (hs : List ValveHandler), (∀ h ∈ hs, h.dryRun = false) →
      (∀ h ∈ hs, NpsCmd.offCmd h.actor h.valve
          ∈ (stopHandlers env true false now hs).1)
      ∧ (stopHandlers env true false now hs).2.2 = none := by
  intro hs
  induction hs with
  | nil => intro _; exact ⟨fun h hmem => absurd hmem (List.not_mem_nil h), rfl⟩
  | cons h rest ih =>
      intro hdry
      have hd : h.dryRun = false := hdry h (List.mem_cons_self h rest)
      have hrest := ih (fun g hg => hdry g (List.mem_cons_of_mem h hg))
      have hfin : h.finish env true false now
          = ((if h.threadId.isSome then
                [NpsCmd.scriptStop h.actor h.threadId] else [])
              ++ [NpsCmd.offCmd h.actor h.valve],
             Except.ok
               { h with closeTime := some now, active := false, eventSet := true }) := by
        simp [ValveHandler.finish, ValveHandler.setState, valve_on_off,
          hestop, hd, cancel_nps_threads]
      constructor
      · intro g hg
        rcases List.mem_cons.mp hg with hgh | hgr
        · subst hgh
          simp [stopHandlers, hfin]
        · have := hrest.1 g hgr
          simp only [stopHandlers, hfin]
          simp [List.mem_append, this]
      · simp [stopHandlers, hfin, hrest.2]

/-- C2 confirmed.  For every orchestrator state and every error
string, with the LN2 e-stops inactive and the supervisors not in dry
run (an active e-stop makes valve_on_off raise before sending, and a
dry run sends nothing by design), abort(error, close_valves=true,
raise_error=true) sets aborted, records abort_time at the call time,
sends at least one off command to every supervisor in the descriptor
set, including ones that were never opened, and raises. -/
theorem abort_closes_every_valve (env : NpsEnv) (st : LN2State)
    (error : Option String) (now : Nat)
    (hestop : env.estopsActive = false)
    (hdry : ∀ h ∈ st.handlers, h.dryRun = false) :
    (ln2Abort env st error true true now).2.1.aborted = true
    ∧ (ln2Abort env st error true true now).2.1.abortTime = some now
    ∧ (∀ h ∈ st.handlers,
        NpsCmd.offCmd h.actor h.valve ∈ (ln2Abort env st error true true now).1)
    ∧ (ln2Abort env st error true true now).2.2
        = some (error.getD "Aborted.") := by
  have hstop := stopHandlers_sends_off env now hestop st.handlers hdry
  simp only [ln2Abort, ln2Stop, hstop.2]
  refine ⟨rfl, rfl, fun h hmem => hstop.1 h hmem, rfl⟩

/-- A small orchestrator state for the C2 witness: two supervisors,
one never opened, neither active. -/
def ln2StateTest : LN2State :=
  { handlers := [closedHandler, ValveHandler.mk0 "b1" "sp1.nps" "b1" false]
    failed := false
    aborted := false
    error := none
    failTime := none
    abortTime := none }

/-- Witness for the C2 theorem at a concrete input. -/
theorem abort_closes_every_valve_witness :
    (ln2Abort envTest ln2StateTest (some "O2 alarm") true true 50).2.1.aborted = true
    ∧ (ln2Abort envTest ln2StateTest (some "O2 alarm") true true 50).2.1.abortTime
        = some 50
    ∧ (∀ h ∈ ln2StateTest.handlers,
        NpsCmd.offCmd h.actor h.valve
          ∈ (ln2Abort envTest ln2StateTest (some "O2 alarm") true true 50).1)
    ∧ (ln2Abort envTest ln2StateTest (some "O2 alarm") true true 50).2.2
        = some "O2 alarm" :=
  abort_closes_every_valve envTest ln2StateTest (some "O2 alarm") 50 rfl
    (by intro h hmem; fin_cases hmem <;> rfl)

/-- The arguments of one call to LN2Handler.abort as issued by the
safety loop. -/
structure AbortCall where
  error : String
  closeValves : Bool
  raiseError : Bool
  deriving DecidableEq

/-- The abort call the safety loop makes on an O2 alarm (ln2.py lines
566-571). -/
def o2AbortCall : AbortCall :=
  { error := "O2 alarm detected: closing valves and aborting."
    closeValves := true
    raiseError := false }

/-- The abort call the safety loop makes on an active LN2 e-stop
(ln2.py lines 580-586); the NPS is already unpowered so the valves are
not commanded. -/
def estopAbortCall : AbortCall :=
  { error := "LN2 estops detected: aborting."
    closeValves := false
    raiseError := false }

/-- The abort call the safety loop makes after too many consecutive
o2-read failures (ln2.py lines 594-599). -/
def tooManyAbortCall : AbortCall :=
  { error := "Too many errors reading alerts. Aborting."
    closeValves := true
    raiseError := false }

/-- The outcome of one iteration's two external reads in the safety
loop: the o2_alert HTTP probe and the ln2_estops actor query, each
either a boolean or a raised exception. -/
structure AlertPoll where
  o2 : Except Unit Bool
  estop : Except Unit Bool

/-- Whether the o2 read of this iteration raised. -/
def o2Failed (p : AlertPoll) : Bool :=
  match p.o2 with
  | Except.error _ => true
  | Except.ok _ => false

/-- Embedding of one iteration of LN2Handler.monitor_alerts (ln2.py
lines 555-601).  Faithful points: a successful o2 read resets the
consecutive-failure counter to zero (after aborting if it read true);
a failed o2 read increments it; the e-stop read aborts without closing
valves when it reads true and its errors are only logged, leaving the
counter untouched; finally, if the updated counter has reached 10, a
third abort is issued.  Returns the new counter and the abort calls of
this iteration, in program order. -/
def monitorStep (nFailed : Nat) (p : AlertPoll) : Nat × List AbortCall :=
  let r1 : Nat × List AbortCall :=
    match p.o2 with
    | Except.ok true => (0, [o2AbortCall])
    | Except.ok false => (0, [])
    | Except.error _ => (nFailed + 1, [])
  let a2 : List AbortCall :=
    match p.estop with
    | Except.ok true => [estopAbortCall]
    | Except.ok false => []
    | Except.error _ => []
  let a3 : List AbortCall := if 10 ≤ r1.1 then [tooManyAbortCall] else []
  (r1.1, r1.2 ++ a2 ++ a3)

/-- The safety loop run over a finite list of poll outcomes, starting
from a given consecutive-failure counter (n_failed starts at 0 in the
source).  Returns the final counter and all abort calls issued. -/
def runAlertMonitor (nFailed : Nat) : List AlertPoll → Nat × List AbortCall
  | [] => (nFailed, [])
  | p :: rest =>
      let s := monitorStep nFailed p
      let r := runAlertMonitor s.1 rest
      (r.1, s.2 ++ r.2)

/-- Number of consecutive o2-read failures at the end of a poll
sequence, written from the words of the claim: the length of the
longest run of failing o2 reads ending at the last iteration. -/
def trailingO2Failures (ps : List AlertPoll) : Nat :=
  (ps.reverse.takeWhile o2Failed).length

/-- Counter update of one iteration in closed form. -/
theorem monitorStep_counter (nFailed : Nat) (p : AlertPoll) :
    (monitorStep nFailed p).1 = if o2Failed p then nFailed + 1 else 0 := by
  rcases p with ⟨o2, estop⟩
  rcases o2 with e | b
  · simp [monitorStep, o2Failed]
  · rcases b with _ | _ <;> simp [monitorStep, o2Failed]

/-- Which abort calls one iteration issues, as membership facts. -/
theorem monitorStep_aborts (n : Nat) (p : AlertPoll) :
    (o2AbortCall ∈ (monitorStep n p).2 ↔ p.o2 = Except.ok true)
    ∧ (estopAbortCall ∈ (monitorStep n p).2 ↔ p.estop = Except.ok true)
    ∧ (tooManyAbortCall ∈ (monitorStep n p).2
        ↔ o2Failed p = true ∧ 10 ≤ n + 1) := by
  have h1 : o2AbortCall ≠ estopAbortCall := by decide
  have h2 : o2AbortCall ≠ tooManyAbortCall := by decide
  have h3 : estopAbortCall ≠ tooManyAbortCall := by decide
  rcases p with ⟨o2, estop⟩
  rcases o2 with e | b
  · rcases estop with e2 | b2
    · simp [monitorStep, o2Failed, h1.symm, h2.symm, h3.symm, h1, h2, h3]
    · rcases b2 with _ | _ <;>
        simp [monitorStep, o2Failed, h1.symm, h2.symm, h3.symm, h1, h2, h3]
  · rcases estop with e2 | b2
    · rcases b with _ | _ <;>
        simp [monitorStep, o2Failed, h1.symm, h2.symm, h3.symm, h1, h2, h3]
    · rcases b with _ | _ <;> rcases b2 with _ | _ <;>
        simp [monitorStep, o2Failed, h1.symm, h2.symm, h3.symm, h1, h2, h3]

/-- Appending one iteration to a run updates the counter like a single
step. -/
theorem runAlertMonitor_append (nFailed : Nat) (ps : List AlertPoll)
    (p : AlertPoll) :
    (runAlertMonitor nFailed (ps ++ [p])).1
      = if o2Failed p then (runAlertMonitor nFailed ps).1 + 1 else 0 := by
  induction ps generalizing nFailed with
  | nil => simp [runAlertMonitor, monitorStep_counter]
  | cons q ps ih => simp [runAlertMonitor, ih]

/-- The loop counter equals the trailing consecutive o2-failure
count. -/
theorem runAlertMonitor_counter_eq_trailing (ps : List AlertPoll) :
    (runAlertMonitor 0 ps).1 = trailingO2Failures ps := by
  induction ps using List.reverseRecOn with
  | nil => rfl
  | append_singleton ps p ih =>
      rw [runAlertMonitor_append, ih]
      simp only [trailingO2Failures, List.reverse_append, List.reverse_cons,
        List.reverse_nil, List.nil_append, List.singleton_append,
        List.takeWhile]
      cases hf : o2Failed p <;> simp [hf]

/-- C4 confirmed.  In every iteration of the safety loop: an o2 read
of true issues the o2 abort with close_valves=true; an e-stop read of
true issues the e-stop abort with close_valves=false; the too-many
abort is issued exactly when the o2 read of the iteration failed and
the consecutive-failure count reaches 10; the counter only depends on
the o2 read (e-stop errors are never counted); and over a whole run
started at zero the counter is exactly the number of trailing
consecutive o2 failures, so the loop tolerates failures up to the
tenth consecutive one, at which it aborts. -/
theorem monitor_alerts_behavior :
    (∀ (n : Nat) (p : AlertPoll),
      (o2AbortCall ∈ (monitorStep n p).2 ↔ p.o2 = Except.ok true)
      ∧ (estopAbortCall ∈ (monitorStep n p).2 ↔ p.estop = Except.ok true)
      ∧ (tooManyAbortCall ∈ (monitorStep n p).2
          ↔ o2Failed p = true ∧ 10 ≤ n + 1)
      ∧ (monitorStep n p).1 = if o2Failed p then n + 1 else 0)
    ∧ o2AbortCall.closeValves = true
    ∧ estopAbortCall.closeValves = false
    ∧ tooManyAbortCall.closeValves = true
    ∧ (∀ (ps : List AlertPoll),
        (runAlertMonitor 0 ps).1 = trailingO2Failures ps) := by
  refine ⟨fun n p => ?_, rfl, rfl, rfl, runAlertMonitor_counter_eq_trailing⟩
  obtain ⟨m1, m2, m3⟩ := monitorStep_aborts n p
  exact ⟨m1, m2, m3, monitorStep_counter n p⟩

/-- Filesystem operations performed on the lock sentinel file. -/
inductive FsOp where
  | create
  | remove
  deriving DecidableEq

/-- What escapes the ensure_lock scope: the LockExistsError raised at
entry, or the guarded body's own exception. -/
inductive LockError where
  | lockExists
  | bodyError (e : String)
  deriving DecidableEq

/-- Embedding of the ensure_lock context manager (lvmcryo/tools.py
lines 219-237).  The input is whether the sentinel file exists at
entry and the outcome of the guarded body; the output is the sequence
of filesystem operations on the sentinel and the outcome of the whole
scope.  Faithful points: the existence check raises LockExistsError
before anything is created; otherwise the sentinel is touched, the
body runs, and the unlink sits in a finally block, so it runs on the
normal and on the exceptional exit alike. -/
def ensure_lock (sentinelExists : Bool) (body : Except String Unit) :
    List FsOp × Except LockError Unit :=
  if sentinelExists then ([], Except.error LockError.lockExists)
  else
    match body with
    | Except.ok _ => ([FsOp.create, FsOp.remove], Except.ok ())
    | Except.error e =>
        ([FsOp.create, FsOp.remove], Except.error (LockError.bodyError e))

/-- C5 confirmed.  Acquiring the lock raises LockExists exactly when
the sentinel already exists; otherwise the sentinel is created and
then removed on every exit of the scope, whether the body returned
normally or raised, and the body's outcome is what escapes the
scope. -/
theorem ensure_lock_spec (body : Except String Unit) :
    (∀ sentinelExists : Bool,
      (ensure_lock sentinelExists body).2 = Except.error LockError.lockExists
        ↔ sentinelExists = true)
    ∧ (ensure_lock false body).1 = [FsOp.create, FsOp.remove]
    ∧ (ensure_lock false body).2
        = (match body with
            | Except.ok _ => Except.ok ()
            | Except.error e => Except.error (LockError.bodyError e))
    ∧ (∀ (sentinelExists : Bool),
        FsOp.create ∈ (ensure_lock sentinelExists body).1
          ↔ FsOp.remove ∈ (ensure_lock sentinelExists body).1) := by
  refine ⟨fun fs => ?_, ?_, ?_, fun fs => ?_⟩
  · cases fs <;> cases body <;> simp [ensure_lock]
  · cases body <;> simp [ensure_lock]
  · cases body <;> simp [ensure_lock]
  · cases fs <;> cases body <;> simp [ensure_lock]

/-- One row of the post-fill dataset: a timestamp and the values of
the selected LN2 temperature columns, in column order.  Temperatures
are rationals; the claim is about order comparisons, which the float
arithmetic of the source performs exactly on the values involved. -/
structure DataRow where
  time : Nat
  vals : List ℚ
  deriving DecidableEq

/-- Insertion of a row into a time-sorted list, keeping earlier rows
first (the polars sort by the time column in validate.py line 128). -/
def insertRow (r : DataRow) : List DataRow → List DataRow
  | [] => [r]
  | s :: rest =>
      if r.time ≤ s.time then r :: s :: rest else s :: insertRow r rest

/-- Time sort of the dataset rows. -/
def sortRows : List DataRow → List DataRow
  | [] => []
  | r :: rest => insertRow r (sortRows rest)

/-- Camera name extracted from a column name, as in validate.py line
144: the second underscore-separated field of the column name
(so "temp_r1_ln2" gives "r1"). -/
def cameraOf (column : String) : String :=
  (column.splitOn "_").getD 1 ""

/-- Messages the validator emits that the claim talks about. -/
inductive ValidateMsg where
  | noData
  | insufficientData
  | tempIncreaseWarning (camera : String)
  | tempIncreaseError (camera : String)
  deriving DecidableEq

/-- For every selected column, its name with the first and the last
value of that column in the time-sorted dataset
(validate.py lines 148-149). -/
def validateTriples (cols : List String) (rows : List DataRow) :
    List (String × ℚ × ℚ) :=
  let sorted := sortRows rows
  cols.zip (List.zip (sorted.headD ⟨0, []⟩).vals (sorted.getLastD ⟨0, []⟩).vals)

/-- Embedding of the per-column loop of validate_fill (validate.py
lines 140-165), over the column triples.  A column whose camera is not
in the filled set is skipped; a temperature increase within the
allowed threshold logs a warning; an increase above the threshold
marks the run failed, logs an error and breaks out of the loop. -/
def checkTempColumns (cameras : List String) (mti : ℚ) :
    List (String × ℚ × ℚ) → Bool × List ValidateMsg
  | [] => (false, [])
  | t :: rest =>
      let camera := cameraOf t.1
      if camera ∈ cameras then
        if t.2.1 < t.2.2 then
          if t.2.1 + mti < t.2.2 then
            (true, [ValidateMsg.tempIncreaseError camera])
          else
            let r := checkTempColumns cameras mti rest
            (r.1, ValidateMsg.tempIncreaseWarning camera :: r.2)
        else checkTempColumns cameras mti rest
      else checkTempColumns cameras mti rest

/-- Embedding of validate_fill (validate.py lines 58-167) from the
point where the dataset is loaded.  Faithful points, in source order:
an empty dataset returns unfailed with an error-level message; a run
with no fill phase (fill_start or fill_complete unset) skips every
temperature check and passes; if the last sample is less than 3
minutes (180 s) past end_time, a warning is logged and the temperature
comparison is skipped (the elapsed time is a real subtraction, modelled
in Int since end_time may postdate the data); otherwise each selected
column is compared first against last.  The returned boolean is the
failed flag. -/
def validate_fill (cameras : List String) (mti : ℚ)
    (fillStart fillComplete : Option Nat) (endTime : Nat)
    (cols : List String) (rows : List DataRow) : Bool × List ValidateMsg :=
  match rows with
  | [] => (false, [ValidateMsg.noData])
  | _ :: _ =>
      match fillStart, fillComplete with
      | some _, some _ =>
          let maxTime := (rows.map DataRow.time).foldl Nat.max 0
          if (maxTime : Int) - (endTime : Int) < 180 then
            (false, [ValidateMsg.insufficientData])
          else
            checkTempColumns cameras mti (validateTriples cols rows)
      | none, _ => (false, [])
      | some _, none => (false, [])

/-- The failed flag of the column loop holds exactly when some column
of a filled camera increased beyond the threshold. -/
theorem checkTempColumns_failed_iff (cameras : List String) (mti : ℚ)
    (hmti : 0 ≤ mti) (ts : List (String × ℚ × ℚ)) :
    (checkTempColumns cameras mti ts).1 = true
      ↔ ∃ t ∈ ts, cameraOf t.1 ∈ cameras ∧ t.2.1 + mti < t.2.2 := by
  induction ts with
  | nil => simp [checkTempColumns]
  | cons t rest ih =>
      by_cases hcam : cameraOf t.1 ∈ cameras
      · by_cases hinc : t.2.1 < t.2.2
        · by_cases hfail : t.2.1 + mti < t.2.2
          · simp [checkTempColumns, hcam, hinc, hfail]
          · simp only [checkTempColumns, hcam, if_true, hinc, hfail, if_false]
            rw [ih]
            simp [hcam, hfail]
        · have hfail : ¬t.2.1 + mti < t.2.2 := by
            intro hlt
            exact hinc (lt_of_le_of_lt (le_add_of_nonneg_right hmti) hlt)
          simp only [checkTempColumns, hcam, if_true, hinc, if_false]
          rw [ih]
          simp [hcam, hfail]
      · simp only [checkTempColumns, hcam, if_false]
        rw [ih]
        simp [hcam]

/-- When the column loop does not fail, every filled camera whose
temperature increased (within the threshold) got a warning. -/
theorem checkTempColumns_warning (cameras : List String) (mti : ℚ)
    (ts : List (String × ℚ × ℚ))
    (hok : (checkTempColumns cameras mti ts).1 = false) :
    ∀ t ∈ ts, cameraOf t.1 ∈ cameras → t.2.1 < t.2.2 →
      ValidateMsg.tempIncreaseWarning (cameraOf t.1)
        ∈ (checkTempColumns cameras mti ts).2 := by
  induction ts with
  | nil => intro t hmem; exact absurd hmem (List.not_mem_nil t)
  | cons u rest ih =>
      intro t hmem hcam hinc
      rcases List.mem_cons.mp hmem with ht | ht
      · subst ht
        by_cases hfail : t.2.1 + mti < t.2.2
        · exfalso
          rw [checkTempColumns] at hok
          simp [hcam, hinc, hfail] at hok
        · simp [checkTempColumns, hcam, hinc, hfail]
      · by_cases hcamu : cameraOf u.1 ∈ cameras
        · by_cases hincu : u.2.1 < u.2.2
          · by_cases hfailu : u.2.1 + mti < u.2.2
            · exfalso
              rw [checkTempColumns] at hok
              simp [hcamu, hincu, hfailu] at hok
            · rw [checkTempColumns] at hok ⊢
              simp only [hcamu, if_true, hincu, hfailu, if_false] at hok ⊢
              exact List.mem_cons_of_mem _ (ih hok t ht hcam hinc)
          · rw [checkTempColumns] at hok ⊢
            simp only [hcamu, if_true, hincu, if_false] at hok ⊢
            exact ih hok t ht hcam hinc
        · rw [checkTempColumns] at hok ⊢
          simp only [hcamu, if_false] at hok ⊢
          exact ih hok t ht hcam hinc

/-- C7 confirmed.  With a nonempty dataset and a nonnegative
threshold: a run without a fill phase passes trivially; when the last
sample is less than 3 minutes after end_time the validator reports
insufficient data as a warning and does not fail; otherwise it fails
exactly when some selected column of a filled camera shows the last
LN2 temperature exceeding the first by more than the threshold, and an
increase within the threshold yields only a warning. -/
theorem validate_fill_spec (cameras : List String) (mti : ℚ)
    (fillStart fillComplete : Option Nat) (endTime : Nat)
    (cols : List String) (rows : List DataRow)
    (hmti : 0 ≤ mti) (hrows : rows ≠ []) :
    ((fillStart = none ∨ fillComplete = none) →
      validate_fill cameras mti fillStart fillComplete endTime cols rows
        = (false, []))
    ∧ (∀ s c, fillStart = some s → fillComplete = some c →
        (((rows.map DataRow.time).foldl Nat.max 0 : Nat) : Int) - (endTime : Int) < 180 →
        validate_fill cameras mti fillStart fillComplete endTime cols rows
          = (false, [ValidateMsg.insufficientData]))
    ∧ (∀ s c, fillStart = some s → fillComplete = some c →
        ¬((((rows.map DataRow.time).foldl Nat.max 0 : Nat) : Int) - (endTime : Int) < 180) →
        ((validate_fill cameras mti fillStart fillComplete endTime cols rows).1
            = true
          ↔ ∃ t ∈ validateTriples cols rows,
              cameraOf t.1 ∈ cameras ∧ t.2.1 + mti < t.2.2)
        ∧ ((validate_fill cameras mti fillStart fillComplete endTime cols rows).1
              = false →
            ∀ t ∈ validateTriples cols rows,
              cameraOf t.1 ∈ cameras → t.2.1 < t.2.2 →
              ValidateMsg.tempIncreaseWarning (cameraOf t.1)
                ∈ (validate_fill cameras mti fillStart fillComplete endTime
                    cols rows).2)) := by
  obtain ⟨r0, rest, hr⟩ : ∃ r0 rest, rows = r0 :: rest := by
    cases rows with
    | nil => exact absurd rfl hrows
    | cons r0 rest => exact ⟨r0, rest, rfl⟩
  subst hr
  refine ⟨?_, ?_, ?_⟩
  · rintro (h | h) <;> subst h
    · rfl
    · cases fillStart <;> rfl
  · intro s c hs hc hlt
    subst hs; subst hc
    simp only [validate_fill]
    rw [if_pos hlt]
  · intro s c hs hc hge
    subst hs; subst hc
    simp only [validate_fill]
    rw [if_neg hge]
    exact ⟨checkTempColumns_failed_iff cameras mti hmti _,
      fun hok => checkTempColumns_warning cameras mti _ hok⟩

/-- Witness for the C7 theorem at a concrete input: one camera whose
temperature dropped across the fill, data extending 300 s past the
end. -/
theorem validate_fill_spec_witness :
    ((some 10 = (none : Option Nat) ∨ some 50 = (none : Option Nat)) →
      validate_fill ["r1"] 0 (some 10) (some 50) 100 ["temp_r1_ln2"]
          [⟨0, [80]⟩, ⟨400, [79]⟩]
        = (false, []))
    ∧ (∀ s c, (some 10 : Option Nat) = some s → (some 50 : Option Nat) = some c →
        ((([(⟨0, [80]⟩ : DataRow), ⟨400, [79]⟩].map DataRow.time).foldl Nat.max 0 : Nat) : Int)
            - (100 : Int) < 180 →
        validate_fill ["r1"] 0 (some 10) (some 50) 100 ["temp_r1_ln2"]
            [⟨0, [80]⟩, ⟨400, [79]⟩]
          = (false, [ValidateMsg.insufficientData]))
    ∧ (∀ s c, (some 10 : Option Nat) = some s → (some 50 : Option Nat) = some c →
        ¬(((([(⟨0, [80]⟩ : DataRow), ⟨400, [79]⟩].map DataRow.time).foldl Nat.max 0 : Nat) : Int)
            - (100 : Int) < 180) →
        ((validate_fill ["r1"] 0 (some 10) (some 50) 100 ["temp_r1_ln2"]
              [⟨0, [80]⟩, ⟨400, [79]⟩]).1 = true
          ↔ ∃ t ∈ validateTriples ["temp_r1_ln2"] [⟨0, [80]⟩, ⟨400, [79]⟩],
              cameraOf t.1 ∈ ["r1"] ∧ t.2.1 + 0 < t.2.2)
        ∧ ((validate_fill ["r1"] 0 (some 10) (some 50) 100 ["temp_r1_ln2"]
              [⟨0, [80]⟩, ⟨400, [79]⟩]).1 = false →
            ∀ t ∈ validateTriples ["temp_r1_ln2"] [⟨0, [80]⟩, ⟨400, [79]⟩],
              cameraOf t.1 ∈ ["r1"] → t.2.1 < t.2.2 →
              ValidateMsg.tempIncreaseWarning (cameraOf t.1)
                ∈ (validate_fill ["r1"] 0 (some 10) (some 50) 100 ["temp_r1_ln2"]
                    [⟨0, [80]⟩, ⟨400, [79]⟩]).2)) :=
  validate_fill_spec ["r1"] 0 (some 10) (some 50) 100 ["temp_r1_ln2"]
    [⟨0, [80]⟩, ⟨400, [79]⟩] (by norm_num) (by simp)

/-- The loop-local state of ThermistorHandler.start_monitoring
(thermistor.py lines 137-261): the unix time of the last fresh data
point (0 when none seen yet), the unix time at which the thermistor
became active (0 used as the not-active sentinel, exactly as in the
source), the time the thermistor has been active, and the recorded
first_active instant. -/
structure WatcherState where
  lastSeen : Nat
  activeStartTime : Nat
  elapsedActive : Nat
  firstActive : Option Nat
  deriving DecidableEq

/-- The state at loop entry (thermistor.py lines 156-165). -/
def initWatcherState : WatcherState :=
  { lastSeen := 0, activeStartTime := 0, elapsedActive := 0, firstActive := none }

/-- One iteration of the watcher loop as seen from outside: the
current unix time and the latest monitor data point for the watched
channel, when the monitor has one that contains the channel
(timestamp of the data point and the boolean reading). -/
structure Tick where
  now : Nat
  sample : Option (Nat × Bool)
  deriving DecidableEq

/-- Embedding of one iteration of the watcher loop (thermistor.py
lines 174-241).  Faithful points: a data point is processed only when
its timestamp differs from the last seen one (the source compares
float timestamps with a 0.1 s tolerance; on whole-second times that is
inequality); a fresh active reading starts the streak clock at the
current time when none is running, records first_active once the
streak strictly exceeds required_active_time, and exits the loop
exactly when the streak clock is running, the streak strictly exceeds
required_active_time and the monitoring time strictly exceeds
min_open_time; a fresh inactive reading resets the streak clock and
the streak length to zero.  The stale-data branch only logs.  Returns
the new state and whether the loop breaks. -/
def thermistorStep (rat minOpen t0 : Nat) (s : WatcherState) (now : Nat)
    (sample : Option (Nat × Bool)) : WatcherState × Bool :=
  match sample with
  | none => (s, false)
  | some (ts, b) =>
      if ts ≠ s.lastSeen then
        if b then
          let a := if s.activeStartTime = 0 then now else s.activeStartTime
          let elapsedActive := now - a
          let fa :=
            if rat < elapsedActive ∧ s.firstActive = none then some now
            else s.firstActive
          ({ lastSeen := ts, activeStartTime := a, elapsedActive := elapsedActive,
             firstActive := fa },
            decide (0 < a ∧ rat < elapsedActive ∧ minOpen < now - t0))
        else
          ({ s with lastSeen := ts, activeStartTime := 0, elapsedActive := 0 },
            false)
      else (s, false)

/-- The watcher loop over a finite list of ticks, instrumented with
the list of fresh readings it processed, as pairs of processing time
and reading.  Returns the exit time when the loop broke within the
trace, and the processed readings up to and including the breaking
tick. -/
def runWatcherLog (rat minOpen t0 : Nat) (s : WatcherState) :
    List Tick → Option Nat × List (Nat × Bool)
  | [] => (none, [])
  | t :: rest =>
      let fresh : List (Nat × Bool) :=
        match t.sample with
        | some (ts, b) => if ts ≠ s.lastSeen then [(t.now, b)] else []
        | none => []
      let r := thermistorStep rat minOpen t0 s t.now t.sample
      if r.2 then (some t.now, fresh)
      else
        let rr := runWatcherLog rat minOpen t0 r.1 rest
        (rr.1, fresh ++ rr.2)

/-- C1 counterexample.  The claim says the loop exits as soon as the
active streak has lasted at least required_active_time and at least
min_open has elapsed.  The source (thermistor.py lines 219-223) uses
strict comparisons.  With required_active_time 2 and min_open 0,
monitoring from time 100, fresh active readings processed at times 101
and 103 give a streak of exactly 2 and an elapsed time of 3 at time
103, so the claimed exit condition holds with both inequalities
non-strict, yet the loop does not exit. -/
theorem thermistor_boundary_cex :
    runWatcherLog 2 0 100 initWatcherState
        [⟨101, some (1, true)⟩, ⟨103, some (2, true)⟩]
      = (none, [(101, true), (103, true)])
    ∧ 2 ≤ 103 - 101 ∧ 0 ≤ 103 - 100 := by
  exact ⟨by decide, by decide, by decide⟩

/-- Streak safety of the watcher loop, generalised over the starting
state for the induction: if the loop run from state s over a
time-increasing trace exits at time tExit, then there is an activation
time a, either inherited from s or one of the trace times, such that
the streak strictly exceeds required_active_time at exit and every
fresh reading processed at or after a was active. -/
theorem runWatcherLog_streak_aux (rat minOpen t0 : Nat) :
    ∀ (trace : List Tick) (s : WatcherState),
      trace.Pairwise (fun u v => u.now < v.now) →
      (∀ t ∈ trace, s.activeStartTime ≤ t.now) →
      ∀ tExit log, runWatcherLog rat minOpen t0 s trace = (some tExit, log) →
        ∃ a, 0 < a ∧ a ≤ tExit ∧ rat < tExit - a
          ∧ (∀ p ∈ log, a ≤ p.1 → p.2 = true)
          ∧ (a = s.activeStartTime ∨ ∃ t ∈ trace, a = t.now) := by
  intro trace
  induction trace with
  | nil =>
      intro s _ _ tExit log hrun
      simp [runWatcherLog] at hrun
  | cons t rest ih =>
      intro s hpw hle tExit log hrun
      have hpwrest : rest.Pairwise (fun u v => u.now < v.now) :=
        (List.pairwise_cons.mp hpw).2
      have htlt : ∀ u ∈ rest, t.now < u.now := (List.pairwise_cons.mp hpw).1
      have hlerest : ∀ u ∈ rest, s.activeStartTime ≤ u.now :=
        fun u hu => hle u (List.mem_cons_of_mem t hu)
      rcases hsam : t.sample with _ | ⟨ts, b⟩
      · -- no data point in this tick: nothing processed, recurse
        simp only [runWatcherLog, hsam, thermistorStep, Bool.false_eq_true,
          if_false, List.nil_append, Prod.mk.eta] at hrun
        obtain ⟨a, ha1, ha2, ha3, ha4, ha5⟩ :=
          ih s hpwrest hlerest tExit log hrun
        refine ⟨a, ha1, ha2, ha3, ha4, ?_⟩
        rcases ha5 with h | ⟨u, hu, hau⟩
        · exact Or.inl h
        · exact Or.inr ⟨u, List.mem_cons_of_mem t hu, hau⟩
      · by_cases hfresh : ts ≠ s.lastSeen
        · rcases b with _ | _
          · -- fresh inactive reading: streak reset, no break, recurse
            simp only [runWatcherLog, hsam, thermistorStep, ne_eq, hfresh,
              not_false_eq_true, if_true, Bool.false_eq_true, if_false,
              Prod.mk.injEq] at hrun
            obtain ⟨hr1, hr2⟩ := hrun
            obtain ⟨a, ha1, ha2, ha3, ha4, ha5⟩ :=
              ih { s with lastSeen := ts, activeStartTime := 0, elapsedActive := 0 }
                hpwrest (fun u _ => by simp) tExit _
                (by rw [Prod.ext_iff]; exact ⟨hr1, rfl⟩)
            have hagt : t.now < a := by
              rcases ha5 with h | ⟨u, hu, hau⟩
              · simp at h; omega
              · rw [hau]; exact htlt u hu
            refine ⟨a, ha1, ha2, ha3, ?_, ?_⟩
            · intro p hp hap
              rw [← hr2] at hp
              rcases List.mem_cons.mp hp with hph | hpr
              · rw [hph] at hap; simp at hap; omega
              · exact ha4 p hpr hap
            · rcases ha5 with h | ⟨u, hu, hau⟩
              · simp at h; omega
              · exact Or.inr ⟨u, List.mem_cons_of_mem t hu, hau⟩
          · -- fresh active reading
            simp only [runWatcherLog, hsam, thermistorStep, ne_eq, hfresh,
              not_false_eq_true, if_true] at hrun
            by_cases hbrk : (0 < (if s.activeStartTime = 0 then t.now
                  else s.activeStartTime)
                ∧ rat < t.now - (if s.activeStartTime = 0 then t.now
                  else s.activeStartTime)
                ∧ minOpen < t.now - t0)
            · -- the loop breaks at this tick
              rw [decide_eq_true hbrk] at hrun
              simp only [eq_self_iff_true, if_true, Prod.mk.injEq] at hrun
              obtain ⟨hr1, hr2⟩ := hrun
              have htexit : tExit = t.now := by
                injection hr1 with h
                exact h.symm
              refine ⟨if s.activeStartTime = 0 then t.now else s.activeStartTime,
                hbrk.1, ?_, ?_, ?_, ?_⟩
              · rw [htexit]
                by_cases hz : s.activeStartTime = 0
                · simp [hz]
                · rw [if_neg hz]
                  exact hle t (List.mem_cons_self t rest)
              · rw [htexit]; exact hbrk.2.1
              · intro p hp _
                rw [← hr2] at hp
                simp only [List.mem_singleton] at hp
                rw [hp]
              · by_cases hz : s.activeStartTime = 0
                · exact Or.inr ⟨t, List.mem_cons_self t rest, by rw [if_pos hz]⟩
                · exact Or.inl (by rw [if_neg hz])
            · -- no break at this tick: recurse
              rw [decide_eq_false hbrk] at hrun
              simp only [Bool.false_eq_true, if_false, Prod.mk.injEq] at hrun
              obtain ⟨hr1, hr2⟩ := hrun
              obtain ⟨a, ha1, ha2, ha3, ha4, ha5⟩ :=
                ih { lastSeen := ts,
                     activeStartTime :=
                       if s.activeStartTime = 0 then t.now else s.activeStartTime,
                     elapsedActive :=
                       t.now - (if s.activeStartTime = 0 then t.now
                         else s.activeStartTime),
                     firstActive :=
                       if rat < t.now - (if s.activeStartTime = 0 then t.now
                           else s.activeStartTime) ∧ s.firstActive = none
                       then some t.now else s.firstActive }
                  hpwrest (by
                    intro u hu
                    show (if s.activeStartTime = 0 then t.now
                      else s.activeStartTime) ≤ u.now
                    by_cases hz : s.activeStartTime = 0
                    · rw [if_pos hz]; exact le_of_lt (htlt u hu)
                    · rw [if_neg hz]; exact hlerest u hu) tExit _
                  (by rw [Prod.ext_iff]; exact ⟨hr1, rfl⟩)
              refine ⟨a, ha1, ha2, ha3, ?_, ?_⟩
              · intro p hp hap
                rw [← hr2] at hp
                rcases List.mem_cons.mp hp with hph | hpr
                · rw [hph]
                · exact ha4 p hpr hap
              · rcases ha5 with h | ⟨u, hu, hau⟩
                · simp only at h
                  by_cases hz : s.activeStartTime = 0
                  · rw [if_pos hz] at h
                    exact Or.inr ⟨t, List.mem_cons_self t rest, h⟩
                  · rw [if_neg hz] at h
                    exact Or.inl h
                · exact Or.inr ⟨u, List.mem_cons_of_mem t hu, hau⟩
        · -- stale data point: nothing processed, recurse
          push_neg at hfresh
          simp only [runWatcherLog, hsam, thermistorStep, hfresh, ne_eq,
            eq_self_iff_true, not_true, if_false, Bool.false_eq_true,
            List.nil_append, Prod.mk.eta] at hrun
          obtain ⟨a, ha1, ha2, ha3, ha4, ha5⟩ :=
            ih s hpwrest hlerest tExit log hrun
          refine ⟨a, ha1, ha2, ha3, ha4, ?_⟩
          rcases ha5 with h | ⟨u, hu, hau⟩
          · exact Or.inl h
          · exact Or.inr ⟨u, List.mem_cons_of_mem t hu, hau⟩

/-- C1 amended.  The watcher loop exits at a tick if and only if that
tick processes a fresh active reading, the streak clock is running,
the continuous active streak strictly exceeds required_active_time and
strictly more than min_open has elapsed since monitoring started; any
fresh inactive reading resets the streak to nil; and consequently the
loop never exits (and so never closes the valve through the thermistor
path) without a continuous active streak strictly longer than
required_active_time: at the exit time there is an activation time
with streak > required_active_time such that every fresh reading
processed from it on was active. -/
theorem thermistor_watcher_spec :
    (∀ (rat minOpen t0 : Nat) (s : WatcherState) (now ts : Nat) (b : Bool),
      (thermistorStep rat minOpen t0 s now (some (ts, b))).2 = true
        ↔ ts ≠ s.lastSeen ∧ b = true
          ∧ 0 < (if s.activeStartTime = 0 then now else s.activeStartTime)
          ∧ rat < now - (if s.activeStartTime = 0 then now else s.activeStartTime)
          ∧ minOpen < now - t0)
    ∧ (∀ (rat minOpen t0 : Nat) (s : WatcherState) (now ts : Nat),
        ts ≠ s.lastSeen →
        (thermistorStep rat minOpen t0 s now (some (ts, false))).1.activeStartTime
            = 0
        ∧ (thermistorStep rat minOpen t0 s now (some (ts, false))).1.elapsedActive
            = 0
        ∧ (thermistorStep rat minOpen t0 s now (some (ts, false))).2 = false)
    ∧ (∀ (rat minOpen t0 : Nat) (trace : List Tick) (tExit : Nat)
        (log : List (Nat × Bool)),
        trace.Pairwise (fun u v => u.now < v.now) →
        runWatcherLog rat minOpen t0 initWatcherState trace = (some tExit, log) →
        ∃ a, 0 < a ∧ a ≤ tExit ∧ rat < tExit - a
          ∧ ∀ p ∈ log, a ≤ p.1 → p.2 = true) := by
  refine ⟨?_, ?_, ?_⟩
  · intro rat minOpen t0 s now ts b
    by_cases hfresh : ts ≠ s.lastSeen
    · rcases b with _ | _
      · simp [thermistorStep, hfresh]
      · simp only [thermistorStep, ne_eq, hfresh, not_false_eq_true, if_true,
          decide_eq_true_eq]
        constructor
        · rintro ⟨h1, h2, h3⟩
          exact ⟨trivial, trivial, h1, h2, h3⟩
        · rintro ⟨_, _, h1, h2, h3⟩
          exact ⟨h1, h2, h3⟩
    · push_neg at hfresh
      simp [thermistorStep, hfresh]
  · intro rat minOpen t0 s now ts hfresh
    exact ⟨by simp [thermistorStep, hfresh], by simp [thermistorStep, hfresh],
      by simp [thermistorStep, hfresh]⟩
  · intro rat minOpen t0 trace tExit log hpw hrun
    obtain ⟨a, ha1, ha2, ha3, ha4, _⟩ :=
      runWatcherLog_streak_aux rat minOpen t0 trace initWatcherState hpw
        (fun t _ => by simp [initWatcherState]) tExit log hrun
    exact ⟨a, ha1, ha2, ha3, ha4⟩

/-- Witness for the C1 amended theorem: all three parts instantiated
at concrete inputs; the trace makes the loop exit at time 104 after a
streak of 3 > 2 that started at 101. -/
theorem thermistor_watcher_spec_witness :
    ((thermistorStep 2 0 100 initWatcherState 101 (some (1, true))).2 = true
      ↔ (1 : Nat) ≠ initWatcherState.lastSeen ∧ true = true
        ∧ 0 < (if initWatcherState.activeStartTime = 0 then 101
            else initWatcherState.activeStartTime)
        ∧ 2 < 101 - (if initWatcherState.activeStartTime = 0 then 101
            else initWatcherState.activeStartTime)
        ∧ 0 < 101 - 100)
    ∧ ((thermistorStep 2 0 100 initWatcherState 101
          (some (1, false))).1.activeStartTime = 0
        ∧ (thermistorStep 2 0 100 initWatcherState 101
            (some (1, false))).1.elapsedActive = 0
        ∧ (thermistorStep 2 0 100 initWatcherState 101 (some (1, false))).2
            = false)
    ∧ ∃ a, 0 < a ∧ a ≤ 104 ∧ 2 < 104 - a
        ∧ ∀ p ∈ [((101 : Nat), true), (104, true)], a ≤ p.1 → p.2 = true := by
  refine ⟨thermistor_watcher_spec.1 2 0 100 initWatcherState 101 1 true,
    thermistor_watcher_spec.2.1 2 0 100 initWatcherState 101 1 (by decide),
    thermistor_watcher_spec.2.2 2 0 100
      [⟨101, some (1, true)⟩, ⟨104, some (2, true)⟩] 104
      [(101, true), (104, true)] ?_ ?_⟩
  · exact List.pairwise_cons.mpr ⟨fun u hu => by fin_cases hu; decide,
      List.pairwise_singleton _ _⟩
  · decide

/-- Uppercase hexadecimal digit for a value below 16 (the datagram
payload digits are [0-9A-F]). -/
def hexDigitChar : Nat → Char
  | 0 => '0'
  | 1 => '1'
  | 2 => '2'
  | 3 => '3'
  | 4 => '4'
  | 5 => '5'
  | 6 => '6'
  | 7 => '7'
  | 8 => '8'
  | 9 => '9'
  | 10 => 'A'
  | 11 => 'B'
  | 12 => 'C'
  | 13 => 'D'
  | 14 => 'E'
  | 15 => 'F'
  | _ => '0'

/-- Value of an uppercase hexadecimal digit, as python int(s, 16)
reads one character. -/
def hexDigitVal (c : Char) : Nat :=
  if '0' ≤ c ∧ c ≤ '9' then c.toNat - '0'.toNat
  else if 'A' ≤ c ∧ c ≤ 'F' then c.toNat - 'A'.toNat + 10
  else 0

/-- Whether a character is matched by the payload pattern [0-9A-F] of
the reply regex in ln2fill/tools.py line 304. -/
def isUpperHexDigit (c : Char) : Bool :=
  decide (('0' ≤ c ∧ c ≤ '9') ∨ ('A' ≤ c ∧ c ≤ 'F'))

/-- Embedding of int(digits, 16) over the matched digit characters. -/
def hexFold (digits : List Char) : Nat :=
  digits.foldl (fun acc c => 16 * acc + hexDigitVal c) 0

/-- Embedding of the reply parsing in read_thermistors
(ln2fill/tools.py lines 304-308): the regex match of
`!01([0-9A-F]+)\r` anchored at the start, then int(group, 16).
Characters after the carriage return are ignored, as with re.match. -/
def parseReply : List Char → Option Nat
  | '!' :: '0' :: '1' :: rest =>
      let digits := rest.takeWhile isUpperHexDigit
      let remainder := rest.dropWhile isUpperHexDigit
      if digits.isEmpty then none
      else if remainder.headD ' ' = '\x0d' then some (hexFold digits)
      else none
  | _ => none

/-- Embedding of the channel loop of read_thermistors
(ln2fill/tools.py lines 310-315): for each channel 0..15, the
configured channel name (empty string when unconfigured, skipped), and
the boolean value of bit n of the payload, value & 1 << channel > 0.
The configuration mapping is a function from channel number to
name. -/
def decodeThermistors (mapping : Nat → String) (value : Nat) :
    List (String × Bool) :=
  (List.range 16).filterMap fun c =>
    if mapping c = "" then none else some (mapping c, value.testBit c)

/-- read_thermistors from the wire reply: parse the datagram then
decode the channels. -/
def read_thermistors (mapping : Nat → String) (reply : List Char) :
    Option (List (String × Bool)) :=
  (parseReply reply).map (decodeThermistors mapping)

/-- Modelled from the spec: the device-side encoder of the thermistor
datagram is not part of this repository; section 6 of the
specification states the reply is `!01<HHHH>\r` where bit n of the
16-bit hex payload is the state of channel n.  packBits builds that
16-bit value from the channel states listed from channel 0 up. -/
def packBits : List Bool → Nat
  | [] => 0
  | b :: rest => (if b then 1 else 0) + 2 * packBits rest

/-- Modelled from the spec: the 16-bit value printed as the 4 hex
digits of the datagram payload, most significant first. -/
def natToHex4 (n : Nat) : List Char :=
  [hexDigitChar (n / 4096 % 16), hexDigitChar (n / 256 % 16),
    hexDigitChar (n / 16 % 16), hexDigitChar (n % 16)]

/-- Modelled from the spec: the full device reply for a 16-channel
boolean map. -/
def encodeReply (bits : List Bool) : List Char :=
  '!' :: '0' :: '1' :: (natToHex4 (packBits bits) ++ ['\x0d'])

/-- Bit n of the packed value is entry n of the list. -/
theorem testBit_packBits : ∀ (l : List Bool) (n : Nat),
    Nat.testBit (packBits l) n = l.getD n false := by
  intro l
  induction l with
  | nil => intro n; simp [packBits]
  | cons b rest ih =>
      intro n
      cases n with
      | zero =>
          rcases b with _ | _ <;>
            simp [packBits, Nat.testBit_zero, Nat.add_mul_mod_self_left]
      | succ n =>
          rw [Nat.testBit_succ]
          have hdiv : ((if b then 1 else 0) + 2 * packBits rest) / 2
              = packBits rest := by
            rcases b with _ | _
            · simp only [Bool.false_eq_true, if_false]
              omega
            · simp only [if_true]
              omega
          rw [packBits, hdiv, ih n]
          rfl

/-- The packed value of a 16-entry list fits in 16 bits. -/
theorem packBits_lt : ∀ (l : List Bool), packBits l < 2 ^ l.length := by
  intro l
  induction l with
  | nil => simp [packBits]
  | cons b rest ih =>
      rcases b with _ | _
      · simp only [packBits, List.length_cons, pow_succ, Bool.false_eq_true,
          if_false]
        omega
      · simp only [packBits, List.length_cons, pow_succ, if_true]
        omega

/-- Reading back one hex digit gives the value. -/
theorem hexDigitVal_hexDigitChar : ∀ d < 16, hexDigitVal (hexDigitChar d) = d := by
  decide

/-- Printed hex digits match the payload pattern. -/
theorem isUpperHexDigit_hexDigitChar : ∀ d < 16,
    isUpperHexDigit (hexDigitChar d) = true := by
  decide

/-- Parsing the four printed digits of a 16-bit value gives the value
back. -/
theorem hexFold_natToHex4 (n : Nat) (hn : n < 65536) :
    hexFold (natToHex4 n) = n := by
  have h1 := hexDigitVal_hexDigitChar (n / 4096 % 16) (Nat.mod_lt _ (by omega))
  have h2 := hexDigitVal_hexDigitChar (n / 256 % 16) (Nat.mod_lt _ (by omega))
  have h3 := hexDigitVal_hexDigitChar (n / 16 % 16) (Nat.mod_lt _ (by omega))
  have h4 := hexDigitVal_hexDigitChar (n % 16) (Nat.mod_lt _ (by omega))
  simp only [hexFold, natToHex4, List.foldl, h1, h2, h3, h4]
  omega

/-- takeWhile and dropWhile split a run of digits followed by the
carriage return. -/
theorem takeWhile_hex_digits : ∀ (ds : List Char) (tail : List Char),
    (∀ c ∈ ds, isUpperHexDigit c = true) →
    isUpperHexDigit (tail.headD '\x0d') = false →
    ((ds ++ tail).takeWhile isUpperHexDigit = ds
      ∧ (ds ++ tail).dropWhile isUpperHexDigit = tail) := by
  intro ds
  induction ds with
  | nil =>
      intro tail _ htail
      cases tail with
      | nil => simp
      | cons c rest =>
          simp only [List.headD_cons] at htail
          simp [List.takeWhile, List.dropWhile, htail]
  | cons d ds ih =>
      intro tail hds htail
      have hd : isUpperHexDigit d = true := hds d (List.mem_cons_self d ds)
      have := ih tail (fun c hc => hds c (List.mem_cons_of_mem d hc)) htail
      simp [List.takeWhile, List.dropWhile, hd, this.1, this.2]

/-- Looking the name of a configured channel up in the decoded map
gives that channel's bit. -/
theorem lookup_decodeThermistors (mapping : Nat → String) (value : Nat)
    (c : Nat) (hc : c < 16) (hne : mapping c ≠ "")
    (hinj : ∀ i, i < 16 → ∀ j, j < 16 → mapping i ≠ "" →
      mapping i = mapping j → i = j) :
    List.lookup (mapping c) (decodeThermistors mapping value)
      = some (value.testBit c) := by
  have main : ∀ (L : List Nat), c ∈ L → (∀ i ∈ L, i < 16) →
      List.lookup (mapping c)
        (L.filterMap fun i =>
          if mapping i = "" then none else some (mapping i, value.testBit i))
        = some (value.testBit c) := by
    intro L
    induction L with
    | nil => intro hcL; exact absurd hcL (List.not_mem_nil c)
    | cons i L ih =>
        intro hcL hL16
        by_cases hi : mapping i = ""
        · have hci : c ≠ i := fun he => hne (he ▸ hi)
          have hcL2 : c ∈ L := by
            rcases List.mem_cons.mp hcL with h | h
            · exact absurd h hci
            · exact h
          simp only [List.filterMap_cons, hi, if_pos]
          exact ih hcL2 (fun j hj => hL16 j (List.mem_cons_of_mem i hj))
        · simp only [List.filterMap_cons, hi, if_neg, ite_false]
          by_cases hname : mapping c = mapping i
          · have : c = i :=
              hinj c hc i (hL16 i (List.mem_cons_self i L)) hne hname
            subst this
            simp [List.lookup]
          · have hcL2 : c ∈ L := by
              rcases List.mem_cons.mp hcL with h | h
              · exact absurd (h ▸ rfl) hname
              · exact h
            have hbeq : (mapping c == mapping i) = false :=
              beq_eq_false_iff_ne.mpr hname
            simp only [List.lookup, hbeq]
            exact ih hcL2 (fun j hj => hL16 j (List.mem_cons_of_mem i hj))
  exact main (List.range 16) (List.mem_range.mpr hc)
    (fun i hi => List.mem_range.mp hi)

/-- C10 confirmed.  For every 16-channel boolean map, encoding it as
the 16-bit hex payload of the thermistor datagram reply (bit n the
state of channel n, as the specification defines the device protocol)
and decoding that reply with the reader of ln2fill/tools.py yields the
original map at every configured channel name, provided distinct
configured channels have distinct names (a python dict keyed by name
cannot represent duplicates). -/
theorem thermistor_roundtrip (bits : List Bool) (mapping : Nat → String)
    (c : Nat) (hlen : bits.length = 16) (hc : c < 16) (hne : mapping c ≠ "")
    (hinj : ∀ i, i < 16 → ∀ j, j < 16 → mapping i ≠ "" →
      mapping i = mapping j → i = j) :
    read_thermistors mapping (encodeReply bits)
      = some (decodeThermistors mapping (packBits bits))
    ∧ List.lookup (mapping c) (decodeThermistors mapping (packBits bits))
      = some (bits.getD c false) := by
  have hlt : packBits bits < 65536 := by
    have := packBits_lt bits
    rw [hlen] at this
    exact this
  have hdigits : ∀ ch ∈ natToHex4 (packBits bits), isUpperHexDigit ch = true := by
    intro ch hch
    simp only [natToHex4, List.mem_cons, List.not_mem_nil, or_false] at hch
    rcases hch with h | h | h | h <;>
      · rw [h]
        exact isUpperHexDigit_hexDigitChar _ (Nat.mod_lt _ (by omega))
  have hsplit := takeWhile_hex_digits (natToHex4 (packBits bits)) ['\x0d']
    hdigits (by decide)
  have hparse : parseReply (encodeReply bits) = some (packBits bits) := by
    simp only [encodeReply, parseReply, hsplit.1, hsplit.2]
    rw [hexFold_natToHex4 (packBits bits) hlt]
    simp [natToHex4]
  constructor
  · simp [read_thermistors, hparse]
  · rw [lookup_decodeThermistors mapping (packBits bits) c hc hne hinj,
      testBit_packBits]

/-- A concrete channel naming: channel 3 is "r1", everything else is
unconfigured. -/
def mappingTest (c : Nat) : String :=
  if c = 3 then "r1" else ""

/-- Witness for the C10 theorem at a concrete input. -/
theorem thermistor_roundtrip_witness :
    read_thermistors mappingTest
        (encodeReply [false, true, false, true, false, false, false, false,
          true, false, false, false, false, false, false, true])
      = some (decodeThermistors mappingTest
          (packBits [false, true, false, true, false, false, false, false,
            true, false, false, false, false, false, false, true]))
    ∧ List.lookup (mappingTest 3)
        (decodeThermistors mappingTest
          (packBits [false, true, false, true, false, false, false, false,
            true, false, false, false, false, false, false, true]))
      = some ([false, true, false, true, false, false, false, false,
          true, false, false, false, false, false, false, true].getD 3 false) :=
  thermistor_roundtrip
    [false, true, false, true, false, false, false, false,
      true, false, false, false, false, false, false, true]
    mappingTest 3 rfl (by omega) (by decide) (by decide)

end LvmCryo
